import Mathlib

/-!
Verification of the regulus front-end's data-shaping and view-state logic.

The development shallowly embeds the two React components that carry the
observable behavior:

* `MiningPitVisualizer.jsx` — the Feature Annotator (`addDataToFeatures`)
  and the Layer Renderer (`miningPitVisualizer`);
* `MapPage.jsx` — the View-State Controller (`toggle3DMode`, `setViewMode`,
  camera nudges);
* the unnamed top-level `App` component — the Upload/Analysis Client
  (`handleAnalysis`) and the surrounding application state machine.

JavaScript objects are modelled as Lean structures restricted to the fields
the code reads; property bags are association lists with first-match lookup,
where the annotator prepends its four keys so that, as with JS object spread,
they shadow any pre-existing keys of the same name.  JS numbers are `Rat`
(every literal in the source is exactly representable).  A value that may be
absent (`undefined`) is an `Option`; a rejected promise inside the `try`
block is the `Except.error` branch carrying the rejection's message.
-/

namespace Regulus

/-- A JSON-like attribute value as it appears in feature properties. -/
inductive JsValue where
  | num : Rat → JsValue
  | str : String → JsValue
  | boolean : Bool → JsValue
  | null : JsValue
  deriving DecidableEq, Repr

/-- Polygon geometry: a list of rings, each a list of (lng, lat) positions. -/
structure Geometry where
  coordinates : List (List (Rat × Rat))
  deriving DecidableEq, Repr

/-- A GeoJSON feature: its `type` field, geometry, and property bag. -/
structure Feature where
  ftype : String
  geometry : Geometry
  properties : List (String × JsValue)
  deriving DecidableEq, Repr

/-- A GeoJSON FeatureCollection; the `features` field may be absent. -/
structure FeatureCollection where
  ftype : String
  features : Option (List Feature)
  deriving DecidableEq, Repr

/-- One record of `illegal_operations` from the backend. -/
structure Operation where
  avg_depth_m : Rat
  volume_m3 : Rat
  deriving DecidableEq, Repr

/-- The `geospatial_data` object; either polygon collection may be absent. -/
structure GeospatialData where
  legal_polygons : Option FeatureCollection
  illegal_polygons : Option FeatureCollection
  deriving DecidableEq, Repr

/-- A parsed JSON response body, restricted to the fields the client reads:
`details` on the error path, `geospatial_data` and `illegal_operations` on
the success path. -/
structure JsonBody where
  details : Option String
  geospatial_data : Option GeospatialData
  illegal_operations : Option (List Operation)
  deriving DecidableEq, Repr

/-- The body of the arrow function inside `featureCollection.features.map`
in `addDataToFeatures`: annotate one feature at position `index`.  The
four new keys are prepended so that first-match lookup gives them
precedence over pre-existing keys, as JS object spread does. -/
def annotateFeature (ops : List Operation) (ill : Bool) (index : Nat)
    (feature : Feature) : Feature :=
  let operation : Option Operation := if ill then ops.get? index else none
  { feature with
    properties :=
      ("status", JsValue.str (if ill then "illegal" else "legal")) ::
      ("depth", match operation with
                | some op => JsValue.num op.avg_depth_m
                | none => JsValue.num 50) ::
      ("volume", match operation with
                 | some op => JsValue.num op.volume_m3
                 | none => JsValue.str "N/A") ::
      ("name", JsValue.str ((if ill then "Illegal Pit #" else "Legal Area #")
                              ++ toString (index + 1))) ::
      feature.properties }

/-- `addDataToFeatures` from `MiningPitVisualizer.jsx`.  Returns `none`
exactly when the collection is absent or its `features` field is absent
(`!featureCollection || !featureCollection.features`); note that an empty
features array is truthy in JS and therefore does not trigger the guard. -/
def addDataToFeatures (ops : List Operation)
    (featureCollection : Option FeatureCollection) (ill : Bool) :
    Option FeatureCollection :=
  match featureCollection with
  | none => none
  | some fc =>
    match fc.features with
    | none => none
    | some fs =>
      some { fc with features := some (fs.mapIdx (annotateFeature ops ill)) }

/-- One `<Layer>` element: its id and layer type. -/
structure LayerSpec where
  id : String
  ltype : String
  deriving DecidableEq, Repr

/-- One `<Source>` element with its nested layers. -/
structure SourceSpec where
  id : String
  data : FeatureCollection
  layers : List LayerSpec
  deriving DecidableEq, Repr

/-- The render output of `MiningPitVisualizer`: the list of sources (each
with its two layers) it registers, in document order.  Renders nothing when
`data` or `data.geospatial_data` is absent. -/
def miningPitVisualizer (data : Option JsonBody) : List SourceSpec :=
  match data with
  | none => []
  | some d =>
    match d.geospatial_data with
    | none => []
    | some gd =>
      let ops := d.illegal_operations.getD []
      let illegalPitsWithData := addDataToFeatures ops gd.illegal_polygons true
      let legalPitsWithData := addDataToFeatures ops gd.legal_polygons false
      (match illegalPitsWithData with
       | some c => [{ id := "illegal-pits", data := c,
                      layers := [{ id := "illegal-pits-3d", ltype := "fill-extrusion" },
                                 { id := "illegal-pits-2d", ltype := "fill" }] }]
       | none => []) ++
      (match legalPitsWithData with
       | some c => [{ id := "legal-pits", data := c,
                      layers := [{ id := "legal-pits-3d", ltype := "fill-extrusion" },
                                 { id := "legal-pits-2d", ltype := "fill" }] }]
       | none => [])

theorem get?_mapIdx {α β : Type} (l : List α) (f : Nat → α → β) (i : Nat) :
    (l.mapIdx f).get? i = (l.get? i).map (f i) := by
  induction l generalizing f i with
  | nil => simp
  | cons a l ih =>
    cases i with
    | zero => simp [List.mapIdx_cons]
    | succ n => simp [List.mapIdx_cons, ih]

/-- The identity of a `transitionEasing` closure in the source.  `toggleQuad`
is the `t => 1 - Math.pow(1 - t, 2)` closure of `toggle3DMode`; `quadOut` is
the `t => t * (2 - t)` closure of the camera nudges; the two tracked easings
are the closures of `setViewMode` (quadratic) and `flyToMine` (cubic) that
also push `setAnimationProgress` as a side effect. -/
inductive Easing where
  | toggleQuad
  | quadOut
  | quadOutTracked
  | cubicOutTracked
  deriving DecidableEq, Repr

/-- The numeric function each easing closure computes. -/
def Easing.eval : Easing → Rat → Rat
  | .toggleQuad, t => 1 - (1 - t) ^ 2
  | .quadOut, t => t * (2 - t)
  | .quadOutTracked, t => 1 - (1 - t) ^ 2
  | .cubicOutTracked, t => 1 - (1 - t) ^ 3

/-- The camera view-state object; `transitionDuration` and
`transitionEasing` are absent keys initially. -/
structure ViewState where
  longitude : Rat
  latitude : Rat
  zoom : Rat
  pitch : Rat
  bearing : Rat
  transitionDuration : Option Rat := none
  transitionEasing : Option Easing := none
  deriving DecidableEq, Repr

/-- The three view modes of `MapPage`'s `currentViewMode` state. -/
inductive ViewMode where
  | topDown
  | perspective
  | crossSection
  deriving DecidableEq, Repr

/-- One entry of the `presets` table inside `setViewMode`. -/
structure Preset where
  pitch : Rat
  bearing : Rat
  zoom : Rat
  transitionDuration : Rat
  deriving DecidableEq, Repr

/-- The `presets` lookup table inside `setViewMode`. -/
def presets : ViewMode → Preset
  | .topDown => { pitch := 0, bearing := 0, zoom := 10.5, transitionDuration := 2000 }
  | .perspective => { pitch := 60, bearing := -30, zoom := 11.2, transitionDuration := 1800 }
  | .crossSection => { pitch := 75, bearing := -45, zoom := 12.5, transitionDuration := 2200 }

/-- Popup state: the clicked point and the clicked feature's properties. -/
structure PopupInfo where
  lngLat : Rat × Rat
  properties : List (String × JsValue)
  deriving DecidableEq, Repr

/-- The state owned by `MapPage` (`useState` slots). -/
structure MapPageState where
  viewState : ViewState
  popupInfo : Option PopupInfo
  currentViewMode : ViewMode
  isAnimating : Bool
  animationProgress : Rat
  is3DEnabled : Bool
  deriving DecidableEq, Repr

/-- The `useState` initializers of `MapPage`. -/
def initialMapPageState : MapPageState where
  viewState := { longitude := 78.98, latitude := 20.58, zoom := 10, pitch := 0, bearing := 0 }
  popupInfo := none
  currentViewMode := .topDown
  isAnimating := false
  animationProgress := 0
  is3DEnabled := true

/-- `toggle3DMode` from `MapPage.jsx`: the synchronous state updates of one
invocation (the deferred `setTimeout` that clears `isAnimating` 1500 ms
later is a separate event and not part of this transition). -/
def toggle3DMode (st : MapPageState) : MapPageState :=
  let enable3D := !st.is3DEnabled
  if enable3D then
    { st with
      is3DEnabled := true
      isAnimating := true
      viewState := { st.viewState with
        pitch := 45, bearing := -30, zoom := 11.2,
        transitionDuration := some 1500, transitionEasing := some .toggleQuad }
      currentViewMode := .perspective }
  else
    { st with
      is3DEnabled := false
      isAnimating := true
      viewState := { st.viewState with
        pitch := 0, bearing := 0, zoom := 10.5,
        transitionDuration := some 1500, transitionEasing := some .toggleQuad }
      currentViewMode := .topDown }

/-- `setViewMode` from `MapPage.jsx`: in 2D mode it early-returns into
`toggle3DMode`, discarding `mode`; in 3D mode it applies the preset. -/
def setViewMode (mode : ViewMode) (st : MapPageState) : MapPageState :=
  if !st.is3DEnabled then
    toggle3DMode st
  else
    let p := presets mode
    { st with
      currentViewMode := mode
      isAnimating := true
      animationProgress := 0
      viewState := { st.viewState with
        pitch := p.pitch, bearing := p.bearing, zoom := p.zoom,
        transitionDuration := some p.transitionDuration,
        transitionEasing := some .quadOutTracked } }

/-- The "Rotate Left" button's `setViewState` updater. -/
def rotateLeft (vs : ViewState) : ViewState :=
  { vs with bearing := vs.bearing - 45,
            transitionDuration := some 800, transitionEasing := some .quadOut }

/-- The "Rotate Right" button's `setViewState` updater. -/
def rotateRight (vs : ViewState) : ViewState :=
  { vs with bearing := vs.bearing + 45,
            transitionDuration := some 800, transitionEasing := some .quadOut }

/-- The "Tilt Up" button's `setViewState` updater. -/
def tiltUp (vs : ViewState) : ViewState :=
  { vs with pitch := min (vs.pitch + 15) 85,
            transitionDuration := some 600, transitionEasing := some .quadOut }

/-- The "Tilt Down" button's `setViewState` updater. -/
def tiltDown (vs : ViewState) : ViewState :=
  { vs with pitch := max (vs.pitch - 15) 0,
            transitionDuration := some 600, transitionEasing := some .quadOut }

/-- An HTTP response as the client observes it: `ok` is `response.ok`, and
`body` is the outcome of `response.json()` — `Except.ok` a parsed object, or
`Except.error` carrying the rejection's message when the body is not JSON. -/
structure Response where
  ok : Bool
  body : Except String JsonBody
  deriving Repr

/-- The state owned by the top-level `App` component (`useState` slots). -/
structure AppState where
  viewState : ViewState
  popupInfo : Option PopupInfo
  analysisResult : Option JsonBody
  isLoading : Bool
  error : Option String
  deriving DecidableEq, Repr

/-- The `useState` initializers of `App`. -/
def initialAppState : AppState where
  viewState := { longitude := 86.44, latitude := 23.75, zoom := 10, pitch := 45, bearing := -30 }
  popupInfo := none
  analysisResult := none
  isLoading := false
  error := none

/-- `errData.details || 'Backend analysis failed'`: the `details` field when
present and truthy, the generic message otherwise. -/
def detailsOrGeneric (errData : JsonBody) : String :=
  match errData.details with
  | some d => if d = "" then "Backend analysis failed" else d
  | none => "Backend analysis failed"

/-- The message of the TypeError thrown when the success path dereferences
an absent object (`results.geospatial_data.illegal_polygons.features` etc.).
Only its occurrence matters to the claims, never its exact text. -/
def typeErrorMsg : String := "TypeError: cannot read properties of undefined"

/-- The camera-target computation of the success path:
`allFeatures = [...illegal.features || [], ...legal.features || []]`, then
`allFeatures[0].geometry.coordinates[0][0]` when `allFeatures` is nonempty.
`Except.error` marks the dereferences that throw in JS. -/
def recenterTarget (results : JsonBody) : Except String (Option (Rat × Rat)) :=
  match results.geospatial_data with
  | none => .error typeErrorMsg
  | some gd =>
    match gd.illegal_polygons, gd.legal_polygons with
    | some ip, some lp =>
      let allFeatures := ip.features.getD [] ++ lp.features.getD []
      match allFeatures with
      | [] => .ok none
      | f :: _ =>
        match f.geometry.coordinates with
        | [] => .error typeErrorMsg
        | ring :: _ =>
          match ring with
          | [] => .error typeErrorMsg
          | c :: _ => .ok (some c)
    | _, _ => .error typeErrorMsg

/-- The `setViewState` update of the success path: recenter on the first
coordinate, zoom 12, 2000 ms transition, everything else spread from `prev`. -/
def applyRecenter (c : Rat × Rat) (vs : ViewState) : ViewState :=
  { vs with longitude := c.1, latitude := c.2, zoom := 12,
            transitionDuration := some 2000 }

/-- `handleAnalysis` from the top-level `App` component, as a state
transition over one full invocation.  `file` is the selected file (absent
aborts before any state change); `netResult` is the outcome of `fetch`
(`Except.error` is a network failure carrying the rejection's message).
The `finally` block clears `isLoading` last on every path past the
file check. -/
def handleAnalysis (file : Option Unit) (netResult : Except String Response)
    (st : AppState) : AppState :=
  match file with
  | none => st
  | some _ =>
    let st1 : AppState := { st with isLoading := true, error := none, analysisResult := none }
    let st2 : AppState :=
      match netResult with
      | .error msg => { st1 with error := some msg }
      | .ok response =>
        if !response.ok then
          match response.body with
          | .error parseMsg => { st1 with error := some parseMsg }
          | .ok errData => { st1 with error := some (detailsOrGeneric errData) }
        else
          match response.body with
          | .error parseMsg => { st1 with error := some parseMsg }
          | .ok results =>
            let st3 : AppState := { st1 with analysisResult := some results }
            match recenterTarget results with
            | .error msg => { st3 with error := some msg }
            | .ok none => st3
            | .ok (some c) => { st3 with viewState := applyRecenter c st3.viewState }
    { st2 with isLoading := false }

/-- `handleMapClick` from `App`: open the popup on the first clicked
feature, no-op when the click hit no interactive feature. -/
def handleMapClick (features : List Feature) (lngLat : Rat × Rat)
    (st : AppState) : AppState :=
  match features with
  | [] => st
  | f :: _ => { st with popupInfo := some { lngLat := lngLat, properties := f.properties } }

/-- The user-visible events that drive `App`'s state. -/
inductive AppEvent where
  | analyze : Option Unit → Except String Response → AppEvent
  | mapClick : List Feature → Rat × Rat → AppEvent
  | mapMove : ViewState → AppEvent
  | popupClose : AppEvent
  deriving Repr

/-- Whether an event is an invocation of the upload/analysis flow. -/
def AppEvent.isAnalyze : AppEvent → Bool
  | .analyze _ _ => true
  | _ => false

/-- The event-step function of `App`: `analyze` is the upload button,
`mapClick` the map's click handler, `mapMove` the map's `onMove`, and
`popupClose` the popup's close button. -/
def appStep : AppEvent → AppState → AppState
  | .analyze file netRes, st => handleAnalysis file netRes st
  | .mapClick fs ll, st => handleMapClick fs ll st
  | .mapMove vs, st => { st with viewState := vs }
  | .popupClose, st => { st with popupInfo := none }

/-! Sample concrete data used by the witness theorems. -/

/-- A one-ring polygon whose first coordinate is (86.5, 23.8). -/
def sampleGeometry : Geometry :=
  { coordinates := [[(86.5, 23.8), (86.6, 23.9), (86.5, 23.8)]] }

/-- A feature with one pre-existing property. -/
def sampleFeature : Feature :=
  { ftype := "Feature", geometry := sampleGeometry,
    properties := [("area", JsValue.str "12 ha")] }

/-- A collection holding `sampleFeature`. -/
def sampleFC : FeatureCollection :=
  { ftype := "FeatureCollection", features := some [sampleFeature] }

/-- One illegal-operation record. -/
def sampleOp : Operation := { avg_depth_m := 42, volume_m3 := 120500 }

/-- C1: every annotated feature's `status` is the collection's fixed tag;
the i-th illegal feature takes operation i's `avg_depth_m`/`volume_m3` when
an operation exists at index i and depth 50 / volume "N/A" otherwise; legal
features always get depth 50 / volume "N/A"; and each feature's `name` is
1-indexed and collection-scoped. -/
theorem annotated_feature_properties (ops : List Operation) (ft : String)
    (fs : List Feature) (ill : Bool) (i : Nat) (f : Feature)
    (hf : fs.get? i = some f) :
    ∃ fc', addDataToFeatures ops (some { ftype := ft, features := some fs }) ill = some fc' ∧
    ∃ fs', fc'.features = some fs' ∧
    ∃ f', fs'.get? i = some f' ∧
      f'.properties.lookup "status" =
        some (JsValue.str (if ill then "illegal" else "legal")) ∧
      (∀ op, ill = true → ops.get? i = some op →
        f'.properties.lookup "depth" = some (JsValue.num op.avg_depth_m) ∧
        f'.properties.lookup "volume" = some (JsValue.num op.volume_m3)) ∧
      (ill = true → ops.get? i = none →
        f'.properties.lookup "depth" = some (JsValue.num 50) ∧
        f'.properties.lookup "volume" = some (JsValue.str "N/A")) ∧
      (ill = false →
        f'.properties.lookup "depth" = some (JsValue.num 50) ∧
        f'.properties.lookup "volume" = some (JsValue.str "N/A")) ∧
      f'.properties.lookup "name" =
        some (JsValue.str ((if ill then "Illegal Pit #" else "Legal Area #")
          ++ toString (i + 1))) := by
  refine ⟨_, rfl, _, rfl, annotateFeature ops ill i f, ?_, ?_, ?_, ?_, ?_, ?_⟩
  · rw [get?_mapIdx, hf]; rfl
  · cases ill <;> simp [annotateFeature, List.lookup]
  · intro op hill hop
    subst hill
    simp only [List.get?_eq_getElem?] at hop
    simp [annotateFeature, List.lookup, hop]
  · intro hill hop
    subst hill
    simp only [List.get?_eq_getElem?] at hop
    simp [annotateFeature, List.lookup, hop]
  · intro hill
    subst hill
    simp [annotateFeature, List.lookup]
  · cases ill <;> simp [annotateFeature, List.lookup]

/-- Witness for C1 at a concrete collection with one illegal feature and a
matching operation record. -/
theorem annotated_feature_properties_witness :
    [sampleFeature].get? 0 = some sampleFeature ∧
    (∃ fc', addDataToFeatures [sampleOp]
        (some { ftype := "FeatureCollection", features := some [sampleFeature] }) true = some fc' ∧
    ∃ fs', fc'.features = some fs' ∧
    ∃ f', fs'.get? 0 = some f' ∧
      f'.properties.lookup "status" =
        some (JsValue.str (if true then "illegal" else "legal")) ∧
      (∀ op, true = true → [sampleOp].get? 0 = some op →
        f'.properties.lookup "depth" = some (JsValue.num op.avg_depth_m) ∧
        f'.properties.lookup "volume" = some (JsValue.num op.volume_m3)) ∧
      (true = true → [sampleOp].get? 0 = none →
        f'.properties.lookup "depth" = some (JsValue.num 50) ∧
        f'.properties.lookup "volume" = some (JsValue.str "N/A")) ∧
      (true = false →
        f'.properties.lookup "depth" = some (JsValue.num 50) ∧
        f'.properties.lookup "volume" = some (JsValue.str "N/A")) ∧
      f'.properties.lookup "name" =
        some (JsValue.str ((if true then "Illegal Pit #" else "Legal Area #")
          ++ toString (0 + 1)))) :=
  ⟨rfl, annotated_feature_properties [sampleOp] "FeatureCollection" [sampleFeature]
    true 0 sampleFeature rfl⟩

/-- A collection that is present but whose features array is empty. -/
def emptyFC : FeatureCollection := { ftype := "FeatureCollection", features := some [] }

/-- A `geospatial_data` object with both collections absent. -/
def emptyGd : GeospatialData := { legal_polygons := none, illegal_polygons := none }

/-- A response body with both collections absent. -/
def emptyBody : JsonBody :=
  { details := none, geospatial_data := some emptyGd, illegal_operations := none }

/-- A body whose illegal collection is present with an empty features
array and whose legal collection is absent. -/
def emptyFeaturesBody : JsonBody :=
  { details := none,
    geospatial_data := some { legal_polygons := none, illegal_polygons := some emptyFC },
    illegal_operations := none }

/-- C2 counterexample: a present collection with an EMPTY features array is
truthy in JS, so the annotator returns a (non-null) collection with zero
features rather than null, and the renderer does register its source and
both layers. -/
theorem empty_features_not_null_cex :
    addDataToFeatures [] (some emptyFC) true =
      some { ftype := "FeatureCollection", features := some [] } ∧
    (miningPitVisualizer (some emptyFeaturesBody)).map SourceSpec.id = ["illegal-pits"] :=
  ⟨rfl, rfl⟩

/-- C2 (amended): the annotator returns null exactly for a collection that
is absent or lacks a `features` field (an empty features array instead
yields a non-null collection, see the counterexample); for an absent or
featureless collection the renderer registers no source or layers. -/
theorem absent_collection_null_amended (d : JsonBody) (gd : GeospatialData)
    (hgd : d.geospatial_data = some gd) :
    (∀ ops ill, addDataToFeatures ops none ill = none) ∧
    (∀ ops ill fc, fc.features = none → addDataToFeatures ops (some fc) ill = none) ∧
    ((gd.illegal_polygons = none ∨ ∃ fc, gd.illegal_polygons = some fc ∧ fc.features = none) →
      ∀ s ∈ miningPitVisualizer (some d), s.id ≠ "illegal-pits") ∧
    ((gd.legal_polygons = none ∨ ∃ fc, gd.legal_polygons = some fc ∧ fc.features = none) →
      ∀ s ∈ miningPitVisualizer (some d), s.id ≠ "legal-pits") := by
  have hnull : ∀ (ops : List Operation) (ill : Bool) (fc? : Option FeatureCollection),
      (fc? = none ∨ ∃ fc, fc? = some fc ∧ fc.features = none) →
      addDataToFeatures ops fc? ill = none := by
    rintro ops ill fc? (rfl | ⟨fc, rfl, hfc⟩)
    · rfl
    · simp [addDataToFeatures, hfc]
  refine ⟨fun ops ill => rfl, fun ops ill fc h => by simp [addDataToFeatures, h], ?_, ?_⟩
  · intro h s hs
    have hil : addDataToFeatures (d.illegal_operations.getD []) gd.illegal_polygons true = none :=
      hnull _ _ _ h
    rcases hleg : addDataToFeatures (d.illegal_operations.getD []) gd.legal_polygons false
      with _ | c
    · simp [miningPitVisualizer, hgd, hil, hleg] at hs
    · simp [miningPitVisualizer, hgd, hil, hleg] at hs
      subst hs
      simp
  · intro h s hs
    have hleg : addDataToFeatures (d.illegal_operations.getD []) gd.legal_polygons false = none :=
      hnull _ _ _ h
    rcases hil : addDataToFeatures (d.illegal_operations.getD []) gd.illegal_polygons true
      with _ | c
    · simp [miningPitVisualizer, hgd, hil, hleg] at hs
    · simp [miningPitVisualizer, hgd, hil, hleg] at hs
      subst hs
      simp

/-- Witness for the amended C2 at a body whose two collections are absent. -/
theorem absent_collection_null_witness :
    emptyBody.geospatial_data = some emptyGd ∧
    ((∀ ops ill, addDataToFeatures ops none ill = none) ∧
     (∀ ops ill fc, fc.features = none → addDataToFeatures ops (some fc) ill = none) ∧
     ((emptyGd.illegal_polygons = none ∨
        ∃ fc, emptyGd.illegal_polygons = some fc ∧ fc.features = none) →
       ∀ s ∈ miningPitVisualizer (some emptyBody), s.id ≠ "illegal-pits") ∧
     ((emptyGd.legal_polygons = none ∨
        ∃ fc, emptyGd.legal_polygons = some fc ∧ fc.features = none) →
       ∀ s ∈ miningPitVisualizer (some emptyBody), s.id ≠ "legal-pits")) :=
  ⟨rfl, absent_collection_null_amended emptyBody emptyGd rfl⟩

/-- A `geospatial_data` object with one illegal feature and an empty legal
collection. -/
def sampleGd : GeospatialData :=
  { legal_polygons := some emptyFC, illegal_polygons := some sampleFC }

/-- A successful analysis body. -/
def successBody : JsonBody :=
  { details := none, geospatial_data := some sampleGd, illegal_operations := some [sampleOp] }

/-- A 200 response carrying `successBody`. -/
def successResp : Response := { ok := true, body := Except.ok successBody }

/-- C3: a successful POST whose body has at least one illegal feature
re-centers the camera on the first coordinate of the first feature in
illegal-then-legal concatenation order (so the first illegal feature wins),
setting longitude/latitude to that coordinate and zoom to 12, and stores
the parsed body as the analysis result. -/
theorem recenter_first_illegal (st : AppState) (resp : Response) (results : JsonBody)
    (gd : GeospatialData) (ip lp : FeatureCollection) (f : Feature) (fs : List Feature)
    (ring : List (Rat × Rat)) (rings : List (List (Rat × Rat))) (lng lat : Rat)
    (hok : resp.ok = true) (hbody : resp.body = Except.ok results)
    (hgd : results.geospatial_data = some gd)
    (hip : gd.illegal_polygons = some ip) (hlp : gd.legal_polygons = some lp)
    (hfs : ip.features = some (f :: fs))
    (hcoords : f.geometry.coordinates = ((lng, lat) :: ring) :: rings) :
    (handleAnalysis (some ()) (Except.ok resp) st).viewState.longitude = lng ∧
    (handleAnalysis (some ()) (Except.ok resp) st).viewState.latitude = lat ∧
    (handleAnalysis (some ()) (Except.ok resp) st).viewState.zoom = 12 ∧
    (handleAnalysis (some ()) (Except.ok resp) st).analysisResult = some results := by
  have htarget : recenterTarget results = Except.ok (some (lng, lat)) := by
    simp [recenterTarget, hgd, hip, hlp, hfs, hcoords]
  simp [handleAnalysis, hok, hbody, htarget, applyRecenter]

/-- Witness for C3: the concrete first coordinate (86.5, 23.8) yields
longitude 86.5, latitude 23.8, zoom 12. -/
theorem recenter_first_illegal_witness :
    successResp.ok = true ∧
    (handleAnalysis (some ()) (Except.ok successResp) initialAppState).viewState.longitude = 86.5 ∧
    (handleAnalysis (some ()) (Except.ok successResp) initialAppState).viewState.latitude = 23.8 ∧
    (handleAnalysis (some ()) (Except.ok successResp) initialAppState).viewState.zoom = 12 ∧
    (handleAnalysis (some ()) (Except.ok successResp) initialAppState).analysisResult =
      some successBody :=
  ⟨rfl, recenter_first_illegal initialAppState successResp successBody sampleGd sampleFC emptyFC
    sampleFeature [] [(86.6, 23.9), (86.5, 23.8)] [] 86.5 23.8
    rfl rfl rfl rfl rfl rfl rfl⟩

/-- A non-2xx response whose body is not JSON: `response.json()` rejects
with the parser's own message. -/
def malformedErrResp : Response :=
  { ok := false, body := Except.error "Unexpected token < in JSON at position 0" }

/-- A 422 response whose JSON body carries a `details` field. -/
def detailsErrResp : Response :=
  { ok := false,
    body := Except.ok { details := some "invalid shapefile",
                        geospatial_data := none, illegal_operations := none } }

/-- C4 counterexample: when JSON parsing of a non-2xx body fails, the
rejection from `response.json()` is caught by the same `catch`, so the
error state becomes the parse error's message — not the generic fallback
the claim requires. -/
theorem error_parse_failure_cex :
    (handleAnalysis (some ()) (Except.ok malformedErrResp) initialAppState).error =
      some "Unexpected token < in JSON at position 0" ∧
    (handleAnalysis (some ()) (Except.ok malformedErrResp) initialAppState).error ≠
      some "Backend analysis failed" :=
  ⟨rfl, by decide⟩

/-- C4 (amended): every non-2xx response is treated as failure and leaves
`analysisResult` unset; a parsed JSON body's truthy `details` field is
surfaced exactly; an absent `details` field falls back to the generic
message; but when JSON parsing of the error body fails, the error state is
the parse error's own message, not the generic fallback. -/
theorem error_details_surfaced_amended (st : AppState) (resp : Response)
    (hnok : resp.ok = false) :
    (handleAnalysis (some ()) (Except.ok resp) st).analysisResult = none ∧
    (∀ errData d, resp.body = Except.ok errData → errData.details = some d → d ≠ "" →
      (handleAnalysis (some ()) (Except.ok resp) st).error = some d) ∧
    (∀ errData, resp.body = Except.ok errData → errData.details = none →
      (handleAnalysis (some ()) (Except.ok resp) st).error = some "Backend analysis failed") ∧
    (∀ msg, resp.body = Except.error msg →
      (handleAnalysis (some ()) (Except.ok resp) st).error = some msg) := by
  refine ⟨?_, ?_, ?_, ?_⟩
  · rcases hb : resp.body with msg | errData <;>
      simp [handleAnalysis, hnok, hb]
  · intro errData d hb hd hne
    simp [handleAnalysis, hnok, hb, detailsOrGeneric, hd, hne]
  · intro errData hb hd
    simp [handleAnalysis, hnok, hb, detailsOrGeneric, hd]
  · intro msg hb
    simp [handleAnalysis, hnok, hb]

/-- Witness for the amended C4 at the concrete 422 response: the error
state is exactly "invalid shapefile" and `analysisResult` stays unset. -/
theorem error_details_surfaced_witness :
    detailsErrResp.ok = false ∧
    (handleAnalysis (some ()) (Except.ok detailsErrResp) initialAppState).analysisResult = none ∧
    (handleAnalysis (some ()) (Except.ok detailsErrResp) initialAppState).error =
      some "invalid shapefile" := by
  refine ⟨rfl, (error_details_surfaced_amended initialAppState detailsErrResp rfl).1, ?_⟩
  exact (error_details_surfaced_amended initialAppState detailsErrResp rfl).2.1
    { details := some "invalid shapefile", geospatial_data := none, illegal_operations := none }
    "invalid shapefile" rfl rfl (by simp)

/-- A `MapPage` state currently in 2D mode. -/
def twoDState : MapPageState := { initialMapPageState with is3DEnabled := false }

/-- C5: calling `setViewMode` while 2D behaves exactly as `toggle3DMode`
(the mode argument is discarded): it enables 3D with the toggle's own
pitch 45 / 1500 ms transition, which differs from every preset's pitch
and duration, so the requested preset is not applied on that call. -/
theorem setViewMode_2d_toggles_only (mode : ViewMode) (st : MapPageState)
    (h : st.is3DEnabled = false) :
    setViewMode mode st = toggle3DMode st ∧
    (setViewMode mode st).is3DEnabled = true ∧
    (setViewMode mode st).viewState.pitch = 45 ∧
    (setViewMode mode st).viewState.transitionDuration = some 1500 ∧
    (presets mode).pitch ≠ 45 ∧
    (presets mode).transitionDuration ≠ 1500 := by
  have hset : setViewMode mode st = toggle3DMode st := by
    simp [setViewMode, h]
  have htog : (toggle3DMode st).is3DEnabled = true ∧
      (toggle3DMode st).viewState.pitch = 45 ∧
      (toggle3DMode st).viewState.transitionDuration = some 1500 := by
    simp [toggle3DMode, h]
  refine ⟨hset, hset ▸ htog.1, hset ▸ htog.2.1, hset ▸ htog.2.2, ?_, ?_⟩ <;>
    cases mode <;> simp [presets]

/-- Witness for C5: requesting the perspective preset from 2D enables 3D
without applying that preset. -/
theorem setViewMode_2d_toggles_only_witness :
    twoDState.is3DEnabled = false ∧
    (setViewMode ViewMode.perspective twoDState = toggle3DMode twoDState ∧
     (setViewMode ViewMode.perspective twoDState).is3DEnabled = true ∧
     (setViewMode ViewMode.perspective twoDState).viewState.pitch = 45 ∧
     (setViewMode ViewMode.perspective twoDState).viewState.transitionDuration = some 1500 ∧
     (presets ViewMode.perspective).pitch ≠ 45 ∧
     (presets ViewMode.perspective).transitionDuration ≠ 1500) :=
  ⟨rfl, setViewMode_2d_toggles_only ViewMode.perspective twoDState rfl⟩

/-- C6 counterexample: starting from the initial (3D) state, toggling to
2D sets viewMode to 'top-down', but toggling back to 3D does not leave the
view mode untouched — `toggle3DMode` sets it to 'perspective' before any
view-mode button is pressed. -/
theorem toggle_sets_perspective_cex :
    (toggle3DMode initialMapPageState).currentViewMode = ViewMode.topDown ∧
    (toggle3DMode initialMapPageState).is3DEnabled = false ∧
    (toggle3DMode (toggle3DMode initialMapPageState)).currentViewMode = ViewMode.perspective ∧
    ViewMode.perspective ≠ ViewMode.topDown := by
  refine ⟨rfl, rfl, rfl, by decide⟩

/-- C6 (amended): from any 3D state, toggling 3D→2D sets viewMode to
'top-down', and toggling back 2D→3D sets it to 'perspective' (it is never
left unset: `currentViewMode` is initialized to 'top-down' and every toggle
assigns a concrete mode). -/
theorem toggle_viewmode_sequence_amended (st : MapPageState)
    (h : st.is3DEnabled = true) :
    (toggle3DMode st).currentViewMode = ViewMode.topDown ∧
    (toggle3DMode st).is3DEnabled = false ∧
    (toggle3DMode (toggle3DMode st)).currentViewMode = ViewMode.perspective ∧
    (toggle3DMode (toggle3DMode st)).is3DEnabled = true := by
  simp [toggle3DMode, h]

/-- Witness for the amended C6 at the initial state. -/
theorem toggle_viewmode_sequence_witness :
    initialMapPageState.is3DEnabled = true ∧
    ((toggle3DMode initialMapPageState).currentViewMode = ViewMode.topDown ∧
     (toggle3DMode initialMapPageState).is3DEnabled = false ∧
     (toggle3DMode (toggle3DMode initialMapPageState)).currentViewMode = ViewMode.perspective ∧
     (toggle3DMode (toggle3DMode initialMapPageState)).is3DEnabled = true) :=
  ⟨rfl, toggle_viewmode_sequence_amended initialMapPageState rfl⟩

theorem handleAnalysis_result_cases (file : Option Unit) (netRes : Except String Response)
    (st : AppState) :
    (handleAnalysis file netRes st).analysisResult = st.analysisResult ∨
    (handleAnalysis file netRes st).analysisResult = none ∨
    ∃ u resp results, file = some u ∧ netRes = Except.ok resp ∧ resp.ok = true ∧
      resp.body = Except.ok results ∧
      (handleAnalysis file netRes st).analysisResult = some results := by
  cases file with
  | none => exact Or.inl rfl
  | some u =>
    cases netRes with
    | error msg => exact Or.inr (Or.inl rfl)
    | ok resp =>
      cases hok : resp.ok with
      | false =>
        refine Or.inr (Or.inl ?_)
        rcases hb : resp.body with m | errData <;> simp [handleAnalysis, hok, hb]
      | true =>
        rcases hb : resp.body with m | results
        · exact Or.inr (Or.inl (by simp [handleAnalysis, hok, hb]))
        · refine Or.inr (Or.inr ⟨u, resp, results, rfl, rfl, hok, hb, ?_⟩)
          rcases ht : recenterTarget results with m | c
          · simp [handleAnalysis, hok, hb, ht]
          · cases c <;> simp [handleAnalysis, hok, hb, ht, applyRecenter]

/-- C7: only the analysis flow touches the stored analysis result — every
other event leaves it unchanged — and whenever a step changes it to a
(non-null) result, that step was an upload invocation whose response was
2xx and whose body parsed to exactly that result. -/
theorem analysisResult_only_from_success (ev : AppEvent) (st : AppState) :
    (ev.isAnalyze = false → (appStep ev st).analysisResult = st.analysisResult) ∧
    (∀ r, (appStep ev st).analysisResult = some r → st.analysisResult ≠ some r →
      ∃ resp : Response, ev = AppEvent.analyze (some ()) (Except.ok resp) ∧
        resp.ok = true ∧ resp.body = Except.ok r) := by
  cases ev with
  | analyze file netRes =>
    refine ⟨fun h => by simp [AppEvent.isAnalyze] at h, ?_⟩
    intro r hr hne
    simp only [appStep] at hr
    rcases handleAnalysis_result_cases file netRes st with hc | hc |
      ⟨u, resp, results, hfile, hnet, hok, hb, hres⟩
    · exact absurd (hc.symm.trans hr) hne
    · rw [hc] at hr
      cases hr
    · have hrr : results = r := Option.some.inj (hres.symm.trans hr)
      subst hrr
      cases u
      subst hfile
      subst hnet
      exact ⟨resp, rfl, hok, hb⟩
  | mapClick fs ll =>
    have hun : (appStep (.mapClick fs ll) st).analysisResult = st.analysisResult := by
      cases fs <;> rfl
    exact ⟨fun _ => hun, fun r hr hne => absurd (hun.symm.trans hr) hne⟩
  | mapMove vs =>
    exact ⟨fun _ => rfl, fun r hr hne => absurd hr hne⟩
  | popupClose =>
    exact ⟨fun _ => rfl, fun r hr hne => absurd hr hne⟩

/-- Witness for C7: a concrete step that changes the stored result is the
successful upload of `successResp`. -/
theorem analysisResult_only_from_success_witness :
    (appStep (AppEvent.analyze (some ()) (Except.ok successResp)) initialAppState).analysisResult =
      some successBody ∧
    initialAppState.analysisResult ≠ some successBody ∧
    ∃ resp : Response,
      AppEvent.analyze (some ()) (Except.ok successResp) =
        AppEvent.analyze (some ()) (Except.ok resp) ∧
      resp.ok = true ∧ resp.body = Except.ok successBody :=
  ⟨rfl, by decide,
    (analysisResult_only_from_success (AppEvent.analyze (some ()) (Except.ok successResp))
      initialAppState).2 successBody rfl (by decide)⟩

/-- C8: once past the missing-file check, the `finally` block clears the
loading flag last, whatever the outcome — success, network failure, or a
non-2xx response. -/
theorem loading_flag_cleared (f : Unit) (netRes : Except String Response) (st : AppState) :
    (handleAnalysis (some f) netRes st).isLoading = false := by
  cases netRes with
  | error msg => rfl
  | ok resp =>
    cases hok : resp.ok with
    | false => rcases hb : resp.body with m | errData <;> simp [handleAnalysis, hok, hb]
    | true =>
      rcases hb : resp.body with m | results
      · simp [handleAnalysis, hok, hb]
      · rcases ht : recenterTarget results with m | c
        · simp [handleAnalysis, hok, hb, ht]
        · cases c <;> simp [handleAnalysis, hok, hb, ht]

/-- C9: each discrete camera nudge keeps pitch inside [0, 85] — tilt up is
min(pitch+15, 85), tilt down is max(pitch-15, 0) — the rotate nudges change
bearing by exactly ±45° without touching pitch, and every nudge carries a
600–800 ms transition with the `t * (2 - t)` easing closure. -/
theorem camera_nudges_bounds (vs : ViewState) (h0 : 0 ≤ vs.pitch) (h85 : vs.pitch ≤ 85) :
    (tiltUp vs).pitch = min (vs.pitch + 15) 85 ∧
    0 ≤ (tiltUp vs).pitch ∧ (tiltUp vs).pitch ≤ 85 ∧
    (tiltDown vs).pitch = max (vs.pitch - 15) 0 ∧
    0 ≤ (tiltDown vs).pitch ∧ (tiltDown vs).pitch ≤ 85 ∧
    (rotateLeft vs).bearing = vs.bearing - 45 ∧ (rotateLeft vs).pitch = vs.pitch ∧
    (rotateRight vs).bearing = vs.bearing + 45 ∧ (rotateRight vs).pitch = vs.pitch ∧
    (tiltUp vs).transitionDuration = some 600 ∧
    (tiltDown vs).transitionDuration = some 600 ∧
    (rotateLeft vs).transitionDuration = some 800 ∧
    (rotateRight vs).transitionDuration = some 800 ∧
    (tiltUp vs).transitionEasing = some Easing.quadOut ∧
    (∀ t, Easing.eval Easing.quadOut t = t * (2 - t)) := by
  refine ⟨rfl, ?_, ?_, rfl, ?_, ?_, rfl, rfl, rfl, rfl, rfl, rfl, rfl, rfl,
    rfl, fun t => rfl⟩
  · exact le_min (by linarith) (by norm_num)
  · exact min_le_right _ _
  · exact le_max_right _ _
  · exact max_le (by linarith) (by norm_num)

/-- Witness for C9 at pitch 45. -/
theorem camera_nudges_bounds_witness :
    (0 : Rat) ≤ 45 ∧ (45 : Rat) ≤ 85 ∧
    ((tiltUp initialAppState.viewState).pitch =
        min (initialAppState.viewState.pitch + 15) 85 ∧
      0 ≤ (tiltUp initialAppState.viewState).pitch ∧
      (tiltUp initialAppState.viewState).pitch ≤ 85) :=
  have h : initialAppState.viewState.pitch = 45 := rfl
  have hmain := camera_nudges_bounds initialAppState.viewState
    (by rw [h]; norm_num) (by rw [h]; norm_num)
  ⟨by norm_num, by norm_num, hmain.1, hmain.2.1, hmain.2.2.1⟩

/-- C10: annotation rewrites only the four keys status/depth/volume/name:
the collection object is rebuilt by spread (its other fields survive), the
feature list keeps its length, each output feature keeps its input
feature's geometry and other fields, and every pre-existing property under
any other key is still found unchanged.  (Input mutation cannot occur in
this pure embedding; the spread-copy shape is what the preserved fields
witness.) -/
theorem annotator_preserves_rest (ops : List Operation) (ft : String)
    (fs : List Feature) (ill : Bool) (i : Nat) (f : Feature)
    (hf : fs.get? i = some f) :
    ∃ fc', addDataToFeatures ops (some { ftype := ft, features := some fs }) ill = some fc' ∧
      fc'.ftype = ft ∧
    ∃ fs', fc'.features = some fs' ∧ fs'.length = fs.length ∧
    ∃ f', fs'.get? i = some f' ∧
      f'.geometry = f.geometry ∧
      f'.ftype = f.ftype ∧
      ∀ k, k ≠ "status" → k ≠ "depth" → k ≠ "volume" → k ≠ "name" →
        f'.properties.lookup k = f.properties.lookup k := by
  refine ⟨_, rfl, rfl, _, rfl, ?_, annotateFeature ops ill i f, ?_, rfl, rfl, ?_⟩
  · simp
  · rw [get?_mapIdx, hf]; rfl
  · intro k h1 h2 h3 h4
    have b1 : (k == "status") = false := beq_eq_false_iff_ne.mpr h1
    have b2 : (k == "depth") = false := beq_eq_false_iff_ne.mpr h2
    have b3 : (k == "volume") = false := beq_eq_false_iff_ne.mpr h3
    have b4 : (k == "name") = false := beq_eq_false_iff_ne.mpr h4
    simp [annotateFeature, List.lookup, b1, b2, b3, b4]

/-- Witness for C10: the pre-existing "area" property of `sampleFeature`
survives annotation unchanged. -/
theorem annotator_preserves_rest_witness :
    [sampleFeature].get? 0 = some sampleFeature ∧
    (∃ fc', addDataToFeatures [sampleOp]
        (some { ftype := "FeatureCollection", features := some [sampleFeature] }) true = some fc' ∧
      fc'.ftype = "FeatureCollection" ∧
    ∃ fs', fc'.features = some fs' ∧ fs'.length = [sampleFeature].length ∧
    ∃ f', fs'.get? 0 = some f' ∧
      f'.geometry = sampleFeature.geometry ∧
      f'.ftype = sampleFeature.ftype ∧
      ∀ k, k ≠ "status" → k ≠ "depth" → k ≠ "volume" → k ≠ "name" →
        f'.properties.lookup k = sampleFeature.properties.lookup k) :=
  ⟨rfl, annotator_preserves_rest [sampleOp] "FeatureCollection" [sampleFeature]
    true 0 sampleFeature rfl⟩

end Regulus
